import Mathlib

/-!
Verification of the dataset merge-and-validate pipeline of the
Interactive_LLM_scripts repository (`StressDataHandler` in
`data_developer_utils.py`, and the inline merge/rename in
`interactive_data_analysis.py`).

The embedding models a pandas DataFrame as a row count together with an
ordered list of named columns; a cell is `Option Value` where `none` plays
the role of NaN/null.  File reading is modelled by passing the result of
each `pd.read_csv` call as an `Option DataFrame` (`none` = the path was
unreadable, i.e. `FileNotFoundError`).  Printed diagnostics are modelled
as `Option String` return components.
-/

namespace StressData

/-- A scalar cell value as it appears in the CSV-derived tables
(integers or free text).  `Option Value` below adds the null/NaN case. -/
inductive Value where
  | int (n : Int)
  | str (s : String)
deriving DecidableEq, Repr

/-- A cell of a DataFrame: `none` models a missing value (NaN). -/
abbrev Cell := Option Value

/-- A pandas DataFrame with a default RangeIndex: a row count and an
ordered list of named columns.  Column names may repeat, as in pandas. -/
structure DataFrame where
  nrows : Nat
  cols : List (String × List Cell)
deriving DecidableEq, Repr

/-- Structural well-formedness: every column holds exactly `nrows` cells. -/
def DataFrame.wellFormed (df : DataFrame) : Bool :=
  df.cols.all (fun c => c.2.length == df.nrows)

/-- `df.columns` of pandas: the ordered list of column names. -/
def DataFrame.columns (df : DataFrame) : List String :=
  df.cols.map Prod.fst

/-- Pad a column with nulls up to `n` rows; models the NaN fill pandas
performs when an outer join extends a column past its own index. -/
def padCol (n : Nat) (col : List Cell) : List Cell :=
  col ++ List.replicate (n - col.length) none

/-- `pd.concat([a, b], axis=1)` on default RangeIndexes: the result index
is the union `0 .. max - 1` of both ranges, the columns of `a` are
followed by the columns of `b`, and any column shorter than the unioned
index is padded with NaN.  When the row counts agree this is exactly
positional column concatenation. -/
def concatAxis1 (a b : DataFrame) : DataFrame :=
  { nrows := max a.nrows b.nrows
    cols := (a.cols ++ b.cols).map
      (fun c => (c.1, padCol (max a.nrows b.nrows) c.2)) }

/-- `df.isnull().sum().sum()`: the total number of null cells. -/
def DataFrame.countNulls (df : DataFrame) : Nat :=
  (df.cols.map (fun c => (c.2.filter (fun x => x == none)).length)).sum

/-- The fixed required-column list of `StressDataHandler.validate_data`
(`expected_columns = ['Gender', 'Age', 'stress_level']`). -/
def expected_columns : List String :=
  ["Gender", "Age", "stress_level"]

/-- `StressDataHandler.validate_data`: returns `False` when no table is
loaded; otherwise checks nulls first, then the required columns.  The
`Option String` component is the diagnostic the method prints on each
path (the code prints nothing when `self.df is None`). -/
def validate_data (df? : Option DataFrame) : Bool × Option String :=
  match df? with
  | none => (false, none)
  | some df =>
    if df.countNulls > 0 then
      (false, some "Error: Missing values found in the data.")
    else if !(expected_columns.all (fun col => df.columns.contains col)) then
      (false, some "Error: Missing expected columns.")
    else
      (true, some "Data validation successful.")

/-- `StressDataHandler._load_and_merge_data`: the two `pd.read_csv`
results are passed as options (`none` = `FileNotFoundError` on that
path).  On any read failure the method prints a diagnostic and returns
`None`; otherwise it returns the axis-1 concatenation. -/
def _load_and_merge_data (stress_read stress_level_read : Option DataFrame) :
    Option DataFrame × Option String :=
  match stress_read, stress_level_read with
  | some a, some b => (some (concatAxis1 a b), none)
  | _, _ => (none, some "Make sure the CSV files are in the correct directory.")

/-- A JSON value, the target of `DataFrame.to_json`. -/
inductive Json where
  | null
  | num (n : Int)
  | str (s : String)
  | arr (elems : List Json)
  | obj (fields : List (String × Json))

/-- A cell serialized to JSON: null cells become JSON `null`. -/
def cellToJson : Cell → Json
  | none => Json.null
  | some (Value.int n) => Json.num n
  | some (Value.str s) => Json.str s

/-- Row `i` of a DataFrame as an ordered association list, one entry per
column in column order. -/
def DataFrame.rowAt (df : DataFrame) (i : Nat) : List (String × Cell) :=
  df.cols.map (fun c => (c.1, c.2.getD i none))

/-- All rows of a DataFrame in row order. -/
def DataFrame.rows (df : DataFrame) : List (List (String × Cell)) :=
  (List.range df.nrows).map df.rowAt

/-- `df.to_json(orient='records')` as a JSON value: an array of one
object per row, each object listing the columns in column order. -/
def toJsonRecords (df : DataFrame) : Json :=
  Json.arr (df.rows.map (fun r =>
    Json.obj (r.map (fun p => (p.1, cellToJson p.2)))))

/-- The JSON document produced by `to_json`: the serialization value
together with the orientation and indentation arguments passed to
pandas (`orient='records'`, `indent=4` in `get_data_as_json`). -/
structure JsonDoc where
  orient : String
  indent : Nat
  value : Json

/-- `StressDataHandler.get_data_as_json` at its default orientation:
`None` when no table is loaded, otherwise
`self.df.to_json(orient='records', indent=4)`. -/
def get_data_as_json (df? : Option DataFrame) : Option JsonDoc :=
  match df? with
  | none => none
  | some df => some ⟨"records", 4, toJsonRecords df⟩

/-- Parse a JSON scalar back into a cell; arrays and objects are not
cell values. -/
def jsonToCell : Json → Option Cell
  | Json.null => some none
  | Json.num n => some (some (Value.int n))
  | Json.str s => some (some (Value.str s))
  | _ => none

/-- Parse the field list of a JSON object back into a record. -/
def parseRecordFields : List (String × Json) → Option (List (String × Cell))
  | [] => some []
  | f :: rest =>
    match jsonToCell f.2, parseRecordFields rest with
    | some c, some cs => some ((f.1, c) :: cs)
    | _, _ => none

/-- Parse one JSON object back into a record (an association list). -/
def parseRecord : Json → Option (List (String × Cell))
  | Json.obj fields => parseRecordFields fields
  | _ => none

/-- Parse a list of JSON values back into records. -/
def parseRecordList : List Json → Option (List (List (String × Cell)))
  | [] => some []
  | j :: rest =>
    match parseRecord j, parseRecordList rest with
    | some r, some rs => some (r :: rs)
    | _, _ => none

/-- Parse an array-of-objects JSON document back into its records. -/
def parseRecords : Json → Option (List (List (String × Cell)))
  | Json.arr xs => parseRecordList xs
  | _ => none

/-- The elements of a JSON array (`[]` for non-arrays). -/
def Json.arrElems : Json → List Json
  | Json.arr xs => xs
  | _ => []

/-- The key list of a JSON object (`[]` for non-objects). -/
def Json.objKeys : Json → List String
  | Json.obj fields => fields.map Prod.fst
  | _ => []

/-- The column rename dictionary `new_column_names` of
`interactive_data_analysis.py`, in source order. -/
def new_column_names : List (String × String) :=
  [("Have you recently experienced stress in your life?", "experienced_stress"),
   ("Have you noticed a rapid heartbeat or palpitations?", "rapid_heartbeat"),
   ("Have you been dealing with anxiety or tension recently?", "anxiety_tension"),
   ("Do you face any sleep problems or difficulties falling asleep?", "sleep_problems"),
   ("Have you been getting headaches more often than usual?", "headaches"),
   ("Do you get irritated easily?", "irritability"),
   ("Do you have trouble concentrating on your academic tasks?", "concentration_difficulty"),
   ("Have you been feeling sadness or low mood?", "low_mood"),
   ("Have you been experiencing any illness or health issues?", "health_issues"),
   ("Do you often feel lonely or isolated?", "loneliness"),
   ("Do you feel overwhelmed with your academic workload?", "workload_overwhelm"),
   ("Are you in competition with your peers, and does it affect you?", "peer_competition"),
   ("Do you find that your relationship often causes you stress?", "relationship_stress"),
   ("Are you facing any difficulties with your professors or instructors?", "professor_difficulties"),
   ("Is your working environment unpleasant or stressful?", "unpleasant_environment"),
   ("Do you struggle to find time for relaxation and leisure activities?", "no_relaxation_time"),
   ("Is your hostel or home environment causing you difficulties?", "home_environment_issues"),
   ("Do you lack confidence in your academic performance?", "low_academic_confidence"),
   ("Do you lack confidence in your choice of academic subjects?", "low_subject_confidence"),
   ("Academic and extracurricular activities conflicting for you?", "activity_conflict"),
   ("Do you attend classes regularly?", "regular_class_attendance"),
   ("Have you gained/lost weight?", "weight_change"),
   ("Which type of stress do you primarily experience?", "stress_type")]

/-- `df.rename(columns=m)`: a column name in the dictionary is replaced
by its image, any other name is kept unchanged. -/
def renameColumns (m : List (String × String)) (df : DataFrame) : DataFrame :=
  { nrows := df.nrows
    cols := df.cols.map (fun c => ((m.lookup c.1).getD c.1, c.2)) }

/-- A canonical snake_case identifier: nonempty, built only of lowercase
letters, digits and underscores. -/
def isSnakeCase (s : String) : Bool :=
  !s.isEmpty && s.toList.all (fun c => c.isLower || c.isDigit || c == '_')

/-- The handler object: the two constructor paths and the table the
constructor stored (`None` when loading failed). -/
structure StressDataHandler where
  stress_path : String
  stress_level_path : String
  df : Option DataFrame
deriving DecidableEq, Repr

/-- `validate_data` as a method: the body only reads `self.df`, so the
state-passing translation returns the handler unchanged alongside the
result. -/
def StressDataHandler.validate_data_run (h : StressDataHandler) :
    (Bool × Option String) × StressDataHandler :=
  (validate_data h.df, h)

/-- `get_data_as_json` as a method: the body only reads `self.df`, so
the state-passing translation returns the handler unchanged alongside
the result. -/
def StressDataHandler.get_data_as_json_run (h : StressDataHandler) :
    Option JsonDoc × StressDataHandler :=
  (get_data_as_json h.df, h)

/-! ### Sample tables shared by witnesses and counterexamples -/

/-- A 5-row, 3-column source table (the spec scenario's source A). -/
def tblA5x3 : DataFrame :=
  ⟨5, [("Gender", List.replicate 5 (some (Value.int 0))),
       ("Age", List.replicate 5 (some (Value.int 20))),
       ("Have you been getting headaches more often than usual?",
        List.replicate 5 (some (Value.int 1)))]⟩

/-- A 5-row, 2-column source table (the spec scenario's source B). -/
def tblB5x2 : DataFrame :=
  ⟨5, [("stress_level", List.replicate 5 (some (Value.int 2))),
       ("anxiety_level", List.replicate 5 (some (Value.int 3)))]⟩

/-- A 4-row, 2-column source table (for the mismatched-row scenario). -/
def tblB4x2 : DataFrame :=
  ⟨4, [("stress_level", List.replicate 4 (some (Value.int 2))),
       ("anxiety_level", List.replicate 4 (some (Value.int 3)))]⟩

/-- A null-free table carrying the three required columns plus extras. -/
def tblC9 : DataFrame :=
  ⟨1, [("Gender", [some (Value.int 0)]), ("Age", [some (Value.int 20)]),
       ("stress_level", [some (Value.int 2)]),
       ("self_esteem", [some (Value.int 25)]),
       ("Do you get irritated easily?", [some (Value.int 3)])]⟩

/-! ### Helper lemmas -/

theorem padCol_length_of_le (n : Nat) (col : List Cell) (h : col.length ≤ n) :
    (padCol n col).length = n := by
  simp only [padCol, List.length_append, List.length_replicate]
  omega

theorem rows_length (df : DataFrame) : df.rows.length = df.nrows := by
  simp [DataFrame.rows]

theorem rowAt_keys (df : DataFrame) (i : Nat) :
    (df.rowAt i).map Prod.fst = df.columns := by
  simp [DataFrame.rowAt, DataFrame.columns]

theorem rows_keys (df : DataFrame) :
    ∀ r ∈ df.rows, r.map Prod.fst = df.columns := by
  intro r hr
  simp only [DataFrame.rows, List.mem_map] at hr
  obtain ⟨i, _, rfl⟩ := hr
  exact rowAt_keys df i

/-! ### Claim theorems -/

/-- C1: for well-formed inputs of equal row count, `pd.concat(axis=1)`
returns a well-formed table with the shared row count and the sum of the
two column counts. -/
theorem merge_preserves_shape (a b : DataFrame)
    (ha : a.wellFormed = true) (hb : b.wellFormed = true)
    (hab : a.nrows = b.nrows) :
    (concatAxis1 a b).nrows = a.nrows ∧
    (concatAxis1 a b).cols.length = a.cols.length + b.cols.length ∧
    (concatAxis1 a b).wellFormed = true := by
  simp only [DataFrame.wellFormed, List.all_eq_true, beq_iff_eq] at ha hb
  refine ⟨by simp [concatAxis1, hab], by simp [concatAxis1], ?_⟩
  simp only [DataFrame.wellFormed, concatAxis1, List.all_eq_true, beq_iff_eq]
  intro c hc
  simp only [List.mem_map, List.mem_append] at hc
  obtain ⟨d, hd, rfl⟩ := hc
  apply padCol_length_of_le
  rcases hd with hd | hd
  · rw [ha d hd]; omega
  · rw [hb d hd]; omega

/-- Witness for C1 at the spec scenario: a 5×3 source and a 5×2 source
merge into a well-formed 5×5 table. -/
theorem merge_preserves_shape_witness :
    (concatAxis1 tblA5x3 tblB5x2).nrows = 5 ∧
    (concatAxis1 tblA5x3 tblB5x2).cols.length = 3 + 2 ∧
    (concatAxis1 tblA5x3 tblB5x2).wellFormed = true :=
  merge_preserves_shape tblA5x3 tblB5x2 (by decide) (by decide) (by decide)

/-- C2: a table containing at least one null cell fails validation with
the missing-values diagnostic (the spec's reason "missing values"): the
null-cell check runs strictly before the required-column check, so this
holds even when required columns are also absent. -/
theorem validate_nulls_checked_first (df : DataFrame)
    (h : 0 < df.countNulls) :
    validate_data (some df) =
      (false, some "Error: Missing values found in the data.") := by
  simp [validate_data, h]

/-- Witness for C2: a one-column table with a single null cell that is
also missing every required column still reports missing values. -/
theorem validate_nulls_checked_first_witness :
    0 < (⟨1, [("x", [(none : Cell)])]⟩ : DataFrame).countNulls ∧
    (expected_columns.all
      (fun col => (⟨1, [("x", [(none : Cell)])]⟩ : DataFrame).columns.contains col))
      = false ∧
    validate_data (some ⟨1, [("x", [(none : Cell)])]⟩) =
      (false, some "Error: Missing values found in the data.") :=
  ⟨by decide, by decide, validate_nulls_checked_first _ (by decide)⟩

/-- C3: a table with zero null cells that is missing at least one
required column fails validation with the missing-columns diagnostic
(the spec's reason "missing columns"). -/
theorem validate_missing_columns (df : DataFrame)
    (h0 : df.countNulls = 0)
    (h1 : expected_columns.all (fun col => df.columns.contains col) = false) :
    validate_data (some df) =
      (false, some "Error: Missing expected columns.") := by
  simp only [validate_data]
  rw [if_neg (by omega), if_pos (by simpa using h1)]

/-- Witness for C3: a null-free table with `Gender` and `Age` but no
`stress_level` column reports missing columns. -/
theorem validate_missing_columns_witness :
    (⟨1, [("Gender", [some (Value.int 0)]), ("Age", [some (Value.int 20)])]⟩
      : DataFrame).countNulls = 0 ∧
    (expected_columns.all
      (fun col => (⟨1, [("Gender", [some (Value.int 0)]),
                        ("Age", [some (Value.int 20)])]⟩
        : DataFrame).columns.contains col)) = false ∧
    validate_data (some ⟨1, [("Gender", [some (Value.int 0)]),
                             ("Age", [some (Value.int 20)])]⟩) =
      (false, some "Error: Missing expected columns.") :=
  ⟨by decide, by decide, validate_missing_columns _ (by decide) (by decide)⟩

/-- C4: on a loaded table, validation returns true exactly when the
table has zero null cells and every required column is present. -/
theorem validate_true_iff (df : DataFrame) :
    (validate_data (some df)).1 = true ↔
      df.countNulls = 0 ∧
      expected_columns.all (fun col => df.columns.contains col) = true := by
  simp only [validate_data]
  by_cases h0 : df.countNulls > 0
  · rw [if_pos h0]
    constructor
    · intro hF; simp at hF
    · rintro ⟨hc, -⟩; omega
  · rw [if_neg h0]
    by_cases h1 : expected_columns.all (fun col => df.columns.contains col) = true
    · rw [if_neg (by simpa using h1)]
      exact ⟨fun _ => ⟨by omega, h1⟩, fun _ => rfl⟩
    · have h1f : expected_columns.all (fun col => df.columns.contains col) = false :=
        eq_false_of_ne_true h1
      rw [if_pos (by simpa using h1f)]
      constructor
      · intro hF; simp at hF
      · rintro ⟨-, hall⟩; exact absurd hall h1

/-- C5: when either `read_csv` result is unavailable (the path was
unreadable), loading prints the diagnostic and returns no table instead
of terminating, and the downstream operations on the missing table are
total no-ops returning failure indicators: validation returns false (no
diagnostic) and the JSON export returns nothing. -/
theorem load_failure_is_nonfatal (ra rb : Option DataFrame)
    (h : ra = none ∨ rb = none) :
    (_load_and_merge_data ra rb).1 = none ∧
    (_load_and_merge_data ra rb).2 =
      some "Make sure the CSV files are in the correct directory." ∧
    validate_data (_load_and_merge_data ra rb).1 = (false, none) ∧
    get_data_as_json (_load_and_merge_data ra rb).1 = none := by
  have hl : _load_and_merge_data ra rb =
      (none, some "Make sure the CSV files are in the correct directory.") := by
    rcases h with rfl | rfl
    · cases rb <;> rfl
    · cases ra <;> rfl
  rw [hl]
  exact ⟨rfl, rfl, rfl, rfl⟩

/-- Witness for C5: the first source is unreadable while the second is a
real table. -/
theorem load_failure_is_nonfatal_witness :
    ((none : Option DataFrame) = none ∨ (some tblB5x2) = none) ∧
    (_load_and_merge_data none (some tblB5x2)).1 = none ∧
    (_load_and_merge_data none (some tblB5x2)).2 =
      some "Make sure the CSV files are in the correct directory." ∧
    validate_data (_load_and_merge_data none (some tblB5x2)).1 = (false, none) ∧
    get_data_as_json (_load_and_merge_data none (some tblB5x2)).1 = none :=
  ⟨Or.inl rfl, load_failure_is_nonfatal none (some tblB5x2) (Or.inl rfl)⟩

/-- C9: the required-column list is hard-coded to exactly
`['Gender', 'Age', 'stress_level']` (the function takes no caller
argument for it), and a null-free table containing these three columns
validates successfully no matter which further columns it has. -/
theorem validate_fixed_required_columns (df : DataFrame)
    (h0 : df.countNulls = 0)
    (hg : df.columns.contains "Gender" = true)
    (ha : df.columns.contains "Age" = true)
    (hs : df.columns.contains "stress_level" = true) :
    expected_columns = ["Gender", "Age", "stress_level"] ∧
    validate_data (some df) = (true, some "Data validation successful.") := by
  refine ⟨rfl, ?_⟩
  have hall : expected_columns.all (fun col => df.columns.contains col) = true := by
    simp only [expected_columns, List.all_cons, List.all_nil, hg, ha, hs,
      Bool.and_true, Bool.true_and]
  simp only [validate_data]
  rw [if_neg (by omega), if_neg (by simpa using hall)]

/-- Witness for C9: a null-free table with the three required columns
plus two extra columns validates successfully. -/
theorem validate_fixed_required_columns_witness :
    tblC9.countNulls = 0 ∧
    (expected_columns = ["Gender", "Age", "stress_level"] ∧
     validate_data (some tblC9) = (true, some "Data validation successful.")) :=
  ⟨by decide,
   validate_fixed_required_columns tblC9 (by decide) (by decide) (by decide) (by decide)⟩

/-- Filtering a run of nulls for nulls keeps the whole run. -/
theorem filter_null_replicate (k : Nat) :
    (List.replicate k (none : Cell)).filter (fun x => x == none) =
      List.replicate k (none : Cell) := by
  induction k with
  | zero => rfl
  | succ k ih => simp [List.replicate_succ, List.filter_cons, ih]

/-- C6 counterexample: merging the 5-row source with a 4-row source does
not fail with a row-count mismatch: `pd.concat(axis=1)` returns a
well-formed 5-row, 5-column merged table, padding the shorter source's
columns with two null cells. -/
theorem merge_mismatch_counterexample :
    (_load_and_merge_data (some tblA5x3) (some tblB4x2)).1 =
      some (concatAxis1 tblA5x3 tblB4x2) ∧
    (concatAxis1 tblA5x3 tblB4x2).nrows = 5 ∧
    (concatAxis1 tblA5x3 tblB4x2).cols.length = 5 ∧
    (concatAxis1 tblA5x3 tblB4x2).wellFormed = true ∧
    (concatAxis1 tblA5x3 tblB4x2).countNulls = 2 := by
  refine ⟨rfl, rfl, rfl, by decide, by decide⟩

/-- A merged table has a positive null count as soon as either source
contributes a column shorter than the unioned index: that column gets
padded with at least one null. -/
theorem countNulls_pos_of_short_col (a b : DataFrame) (c : String × List Cell)
    (hmem : c ∈ a.cols ∨ c ∈ b.cols)
    (hlen : c.2.length < max a.nrows b.nrows) :
    0 < (concatAxis1 a b).countNulls := by
  have hmem' :
      ((padCol (max a.nrows b.nrows) c.2).filter (fun x => x == none)).length ∈
        ((concatAxis1 a b).cols.map
          (fun d => (d.2.filter (fun x => x == none)).length)) := by
    simp only [concatAxis1, List.map_map, List.mem_map]
    refine ⟨c, ?_, rfl⟩
    rcases hmem with h | h
    · exact List.mem_append_left _ h
    · exact List.mem_append_right _ h
  have hle := List.le_sum_of_mem hmem'
  have hpos :
      0 < ((padCol (max a.nrows b.nrows) c.2).filter (fun x => x == none)).length := by
    simp only [padCol, List.filter_append, List.length_append, filter_null_replicate,
      List.length_replicate]
    omega
  calc 0 < _ := hpos
  _ ≤ _ := hle

/-- C6 amended: on mismatched row counts, `pd.concat(axis=1)` does not
fail: whichever source is shorter, it produces a table with the larger
row count in which the shorter source's columns are padded with nulls,
so the merged table contains null cells and the subsequent validation
rejects it. -/
theorem merge_mismatch_pads_with_nulls (a b : DataFrame)
    (ha : a.wellFormed = true) (hb : b.wellFormed = true)
    (hne : a.nrows ≠ b.nrows) (hca : a.cols ≠ []) (hcb : b.cols ≠ []) :
    (concatAxis1 a b).nrows = max a.nrows b.nrows ∧
    0 < (concatAxis1 a b).countNulls ∧
    (validate_data (some (concatAxis1 a b))).1 = false := by
  simp only [DataFrame.wellFormed, List.all_eq_true, beq_iff_eq] at ha hb
  have hpos : 0 < (concatAxis1 a b).countNulls := by
    rcases Nat.lt_or_ge a.nrows b.nrows with hlt | hge
    · obtain ⟨c, hcmem⟩ := List.exists_mem_of_ne_nil a.cols hca
      exact countNulls_pos_of_short_col a b c (Or.inl hcmem)
        (by rw [ha c hcmem]; omega)
    · have hlt : b.nrows < a.nrows := by omega
      obtain ⟨c, hcmem⟩ := List.exists_mem_of_ne_nil b.cols hcb
      exact countNulls_pos_of_short_col a b c (Or.inr hcmem)
        (by rw [hb c hcmem]; omega)
  refine ⟨rfl, hpos, ?_⟩
  simp only [validate_data]
  rw [if_pos hpos]

/-- Witness for C6 in the direction the spec scenario leaves implicit:
a 4-row first source merged with a 5-row second source yields a 5-row
table with nulls that fails validation. -/
theorem merge_mismatch_pads_with_nulls_witness :
    tblB4x2.wellFormed = true ∧ tblA5x3.wellFormed = true ∧
    tblB4x2.nrows ≠ tblA5x3.nrows ∧ tblB4x2.cols ≠ [] ∧ tblA5x3.cols ≠ [] ∧
    ((concatAxis1 tblB4x2 tblA5x3).nrows = max tblB4x2.nrows tblA5x3.nrows ∧
     0 < (concatAxis1 tblB4x2 tblA5x3).countNulls ∧
     (validate_data (some (concatAxis1 tblB4x2 tblA5x3))).1 = false) :=
  ⟨by decide, by decide, by decide, by decide, by decide,
   merge_mismatch_pads_with_nulls tblB4x2 tblA5x3
     (by decide) (by decide) (by decide) (by decide) (by decide)⟩

/-- Serializing then parsing a cell is the identity. -/
theorem jsonToCell_cellToJson (c : Cell) : jsonToCell (cellToJson c) = some c := by
  rcases c with _ | v
  · rfl
  · rcases v with n | s <;> rfl

/-- Serializing then parsing a record's fields is the identity. -/
theorem parseRecordFields_roundtrip (r : List (String × Cell)) :
    parseRecordFields (r.map (fun p => (p.1, cellToJson p.2))) = some r := by
  induction r with
  | nil => rfl
  | cons p rest ih =>
    simp [parseRecordFields, jsonToCell_cellToJson, ih]

/-- Serializing then parsing a list of records is the identity. -/
theorem parseRecordList_roundtrip (rs : List (List (String × Cell))) :
    parseRecordList (rs.map (fun r =>
      Json.obj (r.map (fun p => (p.1, cellToJson p.2))))) = some rs := by
  induction rs with
  | nil => rfl
  | cons r rest ih =>
    simp [parseRecordList, parseRecord, parseRecordFields_roundtrip, ih]

/-- Parsing the records serialization of a table recovers its rows. -/
theorem parseRecords_toJsonRecords (df : DataFrame) :
    parseRecords (toJsonRecords df) = some df.rows := by
  simp [toJsonRecords, parseRecords, parseRecordList_roundtrip]

/-- Association-list lookup along a per-column transformation: with
distinct column names, looking a column's name up in the transformed
list yields that column's image. -/
theorem lookup_map_of_nodup {β γ : Type} (l : List (String × β))
    (g : String × β → γ) (hnd : (l.map Prod.fst).Nodup)
    (c : String × β) (hc : c ∈ l) :
    (l.map (fun d => (d.1, g d))).lookup c.1 = some (g c) := by
  induction l with
  | nil => cases hc
  | cons d rest ih =>
    simp only [List.map_cons, List.nodup_cons, List.mem_map] at hnd
    rcases List.mem_cons.mp hc with rfl | hc
    · simp [List.lookup]
    · have hne : (c.1 == d.1) = false := by
        refine beq_eq_false_iff_ne.mpr (fun he => hnd.1 ?_)
        exact ⟨c, hc, he⟩
      simp only [List.map_cons, List.lookup, hne]
      exact ih hnd.2 hc

/-- C7: exporting a loaded table with distinct column names in records
orientation and parsing the result back yields exactly the table's rows:
one record per row with the keys in column order, and, for each row,
looking up any column's name recovers that column's cell value. -/
theorem json_records_roundtrip (df : DataFrame) (hnd : df.columns.Nodup) :
    get_data_as_json (some df) = some ⟨"records", 4, toJsonRecords df⟩ ∧
    parseRecords (toJsonRecords df) = some df.rows ∧
    df.rows.length = df.nrows ∧
    (∀ r ∈ df.rows, r.map Prod.fst = df.columns) ∧
    (∀ i, i < df.nrows → ∀ c ∈ df.cols,
      (df.rowAt i).lookup c.1 = some (c.2.getD i none)) := by
  refine ⟨rfl, parseRecords_toJsonRecords df, rows_length df, rows_keys df, ?_⟩
  intro i _ c hc
  exact lookup_map_of_nodup df.cols (fun d => d.2.getD i none) hnd c hc

/-- Witness for C7: round trip on a concrete 1-row, 5-column table. -/
theorem json_records_roundtrip_witness :
    tblC9.columns.Nodup ∧
    parseRecords (toJsonRecords tblC9) = some tblC9.rows ∧
    tblC9.rows.length = tblC9.nrows :=
  ⟨by decide, (json_records_roundtrip tblC9 (by decide)).2.1,
   (json_records_roundtrip tblC9 (by decide)).2.2.1⟩

/-- C8 counterexample: the export pipeline does not rename columns: the
merged table built by `_load_and_merge_data` keeps the raw source names
(`Gender`, and the long question text), which are not snake_case, and
those same names are the keys of every exported record; only the indent
half of the claim holds (`indent=4`). -/
theorem export_keys_not_renamed_counterexample :
    (_load_and_merge_data (some tblA5x3) (some tblB5x2)).1 =
      some (concatAxis1 tblA5x3 tblB5x2) ∧
    ((concatAxis1 tblA5x3 tblB5x2).columns.all isSnakeCase) = false ∧
    ((toJsonRecords (concatAxis1 tblA5x3 tblB5x2)).arrElems.map Json.objKeys) =
      List.replicate 5 ((concatAxis1 tblA5x3 tblB5x2).columns) ∧
    (get_data_as_json (some (concatAxis1 tblA5x3 tblB5x2))).map JsonDoc.indent =
      some 4 :=
  ⟨rfl, by decide, by decide, rfl⟩

/-- All association-list lookup hits come from list members. -/
theorem lookup_mem_of_eq_some {β : Type} [BEq β] [LawfulBEq β]
    (l : List (β × String)) (k : β) (t : String)
    (h : l.lookup k = some t) : (k, t) ∈ l := by
  induction l with
  | nil => cases h
  | cons d rest ih =>
    rcases hd : k == d.1 with _ | _
    · simp only [List.lookup, hd] at h
      exact List.mem_cons_of_mem _ (ih h)
    · simp only [List.lookup, hd] at h
      have : k = d.1 := eq_of_beq hd
      subst this
      cases h
      exact List.mem_cons_self _ _

/-- C8 amended: the JSON export keeps the merged table's original column
names as the record keys (no renaming happens in `StressDataHandler`)
and passes `orient='records'` and `indent=4`; renaming exists only in
`interactive_data_analysis.py`, whose dictionary sends the 23 question
columns to snake_case identifiers and leaves every other column name —
`Gender` and `Age` included — unchanged. -/
theorem export_plain_names_indent4 (df : DataFrame) :
    get_data_as_json (some df) = some ⟨"records", 4, toJsonRecords df⟩ ∧
    (∀ j ∈ (toJsonRecords df).arrElems, j.objKeys = df.columns) ∧
    new_column_names.all (fun p => isSnakeCase p.2) = true ∧
    (renameColumns new_column_names df).columns =
      df.columns.map (fun n => (new_column_names.lookup n).getD n) ∧
    (∀ n, (new_column_names.lookup n).getD n = n ∨
      isSnakeCase ((new_column_names.lookup n).getD n) = true) := by
  refine ⟨rfl, ?_, by decide, ?_, ?_⟩
  · intro j hj
    simp only [toJsonRecords, Json.arrElems, List.mem_map] at hj
    obtain ⟨r, hr, rfl⟩ := hj
    simp only [Json.objKeys, List.map_map]
    have := rows_keys df r hr
    simpa [Function.comp] using this
  · simp [renameColumns, DataFrame.columns, List.map_map, Function.comp]
  · intro n
    rcases hl : new_column_names.lookup n with _ | t
    · exact Or.inl rfl
    · refine Or.inr ?_
      have hmem : (n, t) ∈ new_column_names :=
        lookup_mem_of_eq_some new_column_names n t hl
      have hall : new_column_names.all (fun p => isSnakeCase p.2) = true := by decide
      have := List.all_eq_true.mp hall _ hmem
      simpa using this

/-- Witness for C8 at a concrete table: the export document is the
records serialization with indent 4, the rename targets are snake_case,
and renaming the concrete table turns the question column into
`headaches` while leaving `Gender` and `Age` untouched. -/
theorem export_plain_names_indent4_witness :
    get_data_as_json (some tblA5x3) = some ⟨"records", 4, toJsonRecords tblA5x3⟩ ∧
    new_column_names.all (fun p => isSnakeCase p.2) = true ∧
    (renameColumns new_column_names tblA5x3).columns =
      ["Gender", "Age", "headaches"] :=
  ⟨(export_plain_names_indent4 tblA5x3).1,
   (export_plain_names_indent4 tblA5x3).2.2.1,
   by decide⟩

/-- C10: the validation and JSON-export methods are read-only on the
handler: their bodies contain no assignment, so the state-passing
embedding returns the handler — in particular its stored table, with
all column names, row order and cell values — unchanged. -/
theorem methods_preserve_handler_state (h : StressDataHandler) :
    h.validate_data_run.2 = h ∧
    h.get_data_as_json_run.2 = h ∧
    h.validate_data_run.2.df = h.df ∧
    h.get_data_as_json_run.2.df = h.df :=
  ⟨rfl, rfl, rfl, rfl⟩

end StressData
